import Mathlib

/-!
Verification development for the MMAPv1 data-file core
(`src/mongo/db/storage/mmap_v1/data_file.cpp`): the size-growth policy,
the data-file header with its first-time initialization and legacy
upgrade, and the bump-style extent allocator.

Machine integers of the C++ source (`int`, `long`, `unsigned long long`)
are embedded as `Int` / `Nat`.  All the quantities involved stay far below
2^31 under the stated preconditions (file sizes are clamped to
`0x7ff00000` and allocation sizes are bounded by `unusedLength`), so no
wrap-around arithmetic is modelled.

Types only declared in headers outside this repository snapshot
(`DiskLoc`, the header field layout, `DataFileVersion`) are modelled from
the specification; each such definition carries a doc comment saying so.
-/

/-- Build/configuration context for the size policy:
`ptrSize4` embeds `sizeof(int*) == 4` (a 32-bit build), `smallfiles`
embeds `mmapv1GlobalOptions.smallfiles`, `prealloc` embeds
`mmapv1GlobalOptions.prealloc`. -/
structure DataFileConfig where
  ptrSize4 : Bool
  smallfiles : Bool
  prealloc : Bool
deriving DecidableEq, Repr

/-- `DataFile::maxSize`: 512 MiB on a 32-bit build, otherwise
`0x7ff00000`, quartered (`>> 2`) in small-files mode. -/
def DataFile.maxSize (c : DataFileConfig) : Int :=
  if c.ptrSize4 then 512 * 1024 * 1024
  else if c.smallfiles then 0x7ff00000 / 4
  else 0x7ff00000

/-- `DataFile::defaultSize`: `(64*1024*1024) << fileNo` for `fileNo <= 4`,
else `0x7ff00000`; quartered (`>> 2`) in small-files mode.  The file
ordinal is a nonnegative index, embedded as `Nat`. -/
def DataFile.defaultSize (c : DataFileConfig) (fileNo : Nat) : Int :=
  let size : Int := if fileNo ≤ 4 then 64 * 1024 * 1024 * 2 ^ fileNo else 0x7ff00000
  if c.smallfiles then size / 4 else size

/-- The growth loop of `DataFile::open`:
`while (size < minSize) { if (size < maxSize()/2) size *= 2; else { size = maxSize(); break; } }`.
The guard `0 < size` is required for termination of the embedding; every
call site passes `DataFile.defaultSize`, which is positive, so on those
inputs the guard never alters the result. -/
def DataFile.growLoop (minSize maxS : Int) (size : Int) : Int :=
  if h : size < minSize ∧ 0 < size then
    if size < maxS / 2 then DataFile.growLoop minSize maxS (size * 2)
    else maxS
  else size
termination_by (minSize - size).toNat
decreasing_by
  omega

/-- The size computed by `DataFile::open` before any mapping is made:
the growth loop started at `defaultSize(fileNo)`, then clamped to
`maxSize()`. -/
def DataFile.openSize (c : DataFileConfig) (fileNo : Nat) (minSize : Int) : Int :=
  let size := DataFile.growLoop minSize (DataFile.maxSize c) (DataFile.defaultSize c fileNo)
  if size > DataFile.maxSize c then DataFile.maxSize c else size

/-- Modelled from the spec: `DiskLoc` is a value type made of a 32-bit
file ordinal and a 32-bit byte offset (`DiskLoc(a, ofs)` in the source;
its declaration lives in a header outside this snapshot). -/
structure DiskLoc where
  a : Int
  ofs : Int
deriving DecidableEq, Repr

/-- Modelled from the spec: the proper "null" sentinel of `DiskLoc`
(`DiskLoc()` / `Null()` in the source), a reserved value distinct from
the legacy all-zero pair. -/
def DiskLoc.null : DiskLoc := ⟨-1, 0⟩

/-- Modelled from the spec: the current-format version tag written by
first-time initialization (`DataFileVersion::defaultForNewFiles()`),
distinct from the all-zero bytes of a never-initialized header. -/
def DataFileVersion.defaultForNewFiles : Int := 1

/-- `DataFileHeader::HeaderSize`: the fixed 8192-byte header record. -/
def DataFileHeader.HeaderSize : Int := 8192

/-- The fields of `DataFileHeader` (declared in a header file outside
this snapshot; field set taken from the spec's data model and from the
writes performed in `data_file.cpp`). -/
structure DataFileHeader where
  version : Int
  fileLength : Int
  unused : DiskLoc
  unusedLength : Int
  freeListStart : DiskLoc
  freeListEnd : DiskLoc
deriving DecidableEq, Repr

/-- Modelled from the spec: `uninitialized()` — the header's on-disk
bytes indicate it has never been initialized, represented as a version
tag still holding the all-zero bytes. -/
def DataFileHeader.uninitialized (h : DataFileHeader) : Bool :=
  h.version == 0

/-- `DataFileHeader::checkUpgrade`: if `freeListStart == DiskLoc(0, 0)`,
invariant-check that `freeListEnd == DiskLoc(0, 0)` (`none` embeds the
fatal invariant failure) and rewrite both pointers to the null sentinel
inside a committed write unit; otherwise leave the header unchanged. -/
def DataFileHeader.checkUpgrade (h : DataFileHeader) : Option DataFileHeader :=
  if h.freeListStart = ⟨0, 0⟩ then
    if h.freeListEnd = ⟨0, 0⟩ then
      some { h with freeListStart := DiskLoc.null, freeListEnd := DiskLoc.null }
    else none
  else some h

/-- `DataFileHeader::init`.  `none` embeds the fatal assertions
(`massert 13640` on an implausible `filelength`, and the `invariant`
inside `checkUpgrade`); `some h` with the header unchanged embeds the
deferred no-op return taken when the caller holds no write lock
(`isWriteLocked` embeds `txn->lockState()->isWriteLocked()`).  On the
initializing path the durable writes set every header field; note
`unusedLength` is computed from the just-written `fileLength`. -/
def DataFileHeader.init (isWriteLocked : Bool) (fileno filelength : Int)
    (h : DataFileHeader) : Option DataFileHeader :=
  if h.uninitialized then
    if ¬(filelength > 32768) then none
    else if ¬isWriteLocked then some h
    else
      some { version := DataFileVersion.defaultForNewFiles
             fileLength := filelength
             unused := ⟨fileno, DataFileHeader.HeaderSize⟩
             unusedLength := filelength - DataFileHeader.HeaderSize - 16
             freeListStart := DiskLoc.null
             freeListEnd := DiskLoc.null }
  else
    h.checkUpgrade

/-- `DataFile::allocExtentArea`.  `none` embeds the fatal assertions:
shutdown in progress (`massert 10357`), null header (`massert 10359`,
embedded as the `none` case of the `Option` header), and the precondition
`verify(size <= header()->unusedLength)`.  On success the cursor advance
and the length decrement are performed as one durable-write unit and the
previous cursor position is returned. -/
def DataFile.allocExtentArea (inShutdown : Bool) (fileNo : Int)
    (header : Option DataFileHeader) (size : Int) :
    Option (DataFileHeader × DiskLoc) :=
  if inShutdown then none
  else
    match header with
    | none => none
    | some h =>
      if size ≤ h.unusedLength then
        let offset := h.unused.ofs
        some ({ h with unused := ⟨fileNo, offset + size⟩
                       unusedLength := h.unusedLength - size },
              ⟨fileNo, offset⟩)
      else none

/-- Outcome of `DataFile::openExisting`: a typed error `Status` returned
to the caller, a fatal assertion (`verify` / `uassert`), or success. -/
inductive OpenExistingOutcome where
  | invalidPath
  | internalError
  | fatal
  | ok
deriving DecidableEq, Repr

/-- `DataFile::openExisting`.  The environment of the call is embedded as
booleans: `fileExists` embeds `boost::filesystem::exists(filename)`,
`openOk` embeds `mmf.open(filename, false)`, `viewNonNull` embeds
`mmf.getView() != 0`; `sz` embeds `mmf.length()` (an unsigned size).
The under-64-MiB branch distinguishes a legitimate small-mode size
(info log, proceed) from an implausible size (`verify(false)`). -/
def DataFile.openExisting (c : DataFileConfig)
    (fileExists openOk viewNonNull : Bool) (sz : Nat) : OpenExistingOutcome :=
  if ¬fileExists then .invalidPath
  else if ¬openOk then .internalError
  else if ¬viewNonNull then .fatal
  else if ¬(sz ≤ 0x7fffffff) then .fatal
  else if ¬(sz % 4096 = 0) then .fatal
  else if sz < 64 * 1024 * 1024 ∧ ¬c.smallfiles then
    if 16 * 1024 * 1024 ≤ sz ∧ sz % (1024 * 1024) = 0 then .ok
    else .fatal
  else .ok

/-- Observable effects of one `DataFile::open` call: whether a background
preallocation request was issued (and for how many bytes), whether a
mapping was created (and at what size), and whether header initialization
was driven. -/
structure OpenEffects where
  requested : Option Int
  mappedSize : Option Int
  headerInitCalled : Bool
deriving DecidableEq, Repr

/-- `DataFile::open` (named `openFile` because `open` is reserved in
Lean).  The computed size is `DataFile.openSize`; the two `verify`
assertions on it and the `verify(sz <= 0x7fffffff)` after `mmf.create`
embed as `none` (they never fire, see `DataFile.openSize_props`).
`createOk` embeds `mmf.create(filename, sz, false)` and `viewNonNull`
embeds `mmf.getView() != 0`; a false value of either leaves `_mb` null
and `data_file_check` raises (`none`).  In the preallocate-only branch a
request is issued only when `mmapv1GlobalOptions.prealloc` is set. -/
def DataFile.openFile (c : DataFileConfig) (fileNo : Nat) (minSize : Int)
    (preallocateOnly createOk viewNonNull : Bool) : Option OpenEffects :=
  let size := DataFile.openSize c fileNo minSize
  if ¬(size ≥ 64 * 1024 * 1024 ∨ c.smallfiles) then none
  else if ¬(size % 4096 = 0) then none
  else if preallocateOnly then
    some { requested := if c.prealloc then some size else none
           mappedSize := none
           headerInitCalled := false }
  else if createOk ∧ viewNonNull then
    if ¬(size ≤ 0x7fffffff) then none
    else
      some { requested := none
             mappedSize := some size
             headerInitCalled := true }
  else none

/-- A commonly used configuration in concrete instances below: 64-bit
build, small-files mode off, background preallocation off. -/
def cfgStd : DataFileConfig := ⟨false, false, false⟩

/-- The growth loop exactly as the specification words it (§4.1): "while
the candidate is smaller than `minSize`, double it, unless doubling would
exceed half of `maxSize()`, in which case jump directly to `maxSize()`
and stop."  The jump condition is therefore `size * 2 > maxS / 2`.
Written only to be compared against `DataFile.growLoop`; the positivity
guard mirrors the one there. -/
def specGrowLoop (minSize maxS size : Int) : Int :=
  if h : size < minSize ∧ 0 < size then
    if size * 2 > maxS / 2 then maxS
    else specGrowLoop minSize maxS (size * 2)
  else size
termination_by (minSize - size).toNat
decreasing_by
  omega

/-- The open-size computation with the specification-worded loop
(`specGrowLoop`) in place of the source loop, clamp included. -/
def specOpenSize (c : DataFileConfig) (fileNo : Nat) (minSize : Int) : Int :=
  let size := specGrowLoop minSize (DataFile.maxSize c) (DataFile.defaultSize c fileNo)
  if size > DataFile.maxSize c then DataFile.maxSize c else size

/-- The growth loop with the amended jump condition: double the
candidate unless doubling would reach or exceed `maxSize()` itself
(`size * 2 ≥ maxS`), in which case jump directly to `maxSize()`. -/
def amendedGrowLoop (minSize maxS size : Int) : Int :=
  if h : size < minSize ∧ 0 < size then
    if size * 2 ≥ maxS then maxS
    else amendedGrowLoop minSize maxS (size * 2)
  else size
termination_by (minSize - size).toNat
decreasing_by
  omega

/-- The open-size computation with the amended loop, clamp included. -/
def amendedOpenSize (c : DataFileConfig) (fileNo : Nat) (minSize : Int) : Int :=
  let size := amendedGrowLoop minSize (DataFile.maxSize c) (DataFile.defaultSize c fileNo)
  if size > DataFile.maxSize c then DataFile.maxSize c else size

/-- When `maxS` is even, the amended jump condition agrees with the
source loop's condition, so the two loops compute the same size. -/
theorem amendedGrowLoop_eq_growLoop (minSize maxS : Int) (hm : 2 ∣ maxS)
    (size : Int) :
    amendedGrowLoop minSize maxS size = DataFile.growLoop minSize maxS size := by
  rw [amendedGrowLoop, DataFile.growLoop]
  by_cases h : size < minSize ∧ 0 < size
  · rw [dif_pos h, dif_pos h]
    by_cases h2 : size < maxS / 2
    · rw [if_pos h2, if_neg (by omega)]
      exact amendedGrowLoop_eq_growLoop minSize maxS hm (size * 2)
    · rw [if_neg h2, if_pos (by omega)]
  · rw [dif_neg h, dif_neg h]
termination_by (minSize - size).toNat
decreasing_by
  omega

/-- The growth loop preserves divisibility by 4096. -/
theorem DataFile.growLoop_dvd (minSize maxS size : Int)
    (hs : (4096 : Int) ∣ size) (hm : (4096 : Int) ∣ maxS) :
    (4096 : Int) ∣ DataFile.growLoop minSize maxS size := by
  rw [DataFile.growLoop]
  by_cases h : size < minSize ∧ 0 < size
  · rw [dif_pos h]
    by_cases h2 : size < maxS / 2
    · rw [if_pos h2]
      exact DataFile.growLoop_dvd minSize maxS (size * 2) (hs.mul_right 2) hm
    · rw [if_neg h2]
      exact hm
  · rw [dif_neg h]
    exact hs
termination_by (minSize - size).toNat
decreasing_by
  omega

/-- The growth loop never shrinks below a bound that the starting size
and the cap both satisfy. -/
theorem DataFile.growLoop_lower (m minSize maxS size : Int)
    (hs : m ≤ size) (hm : m ≤ maxS) :
    m ≤ DataFile.growLoop minSize maxS size := by
  rw [DataFile.growLoop]
  by_cases h : size < minSize ∧ 0 < size
  · rw [dif_pos h]
    by_cases h2 : size < maxS / 2
    · rw [if_pos h2]
      exact DataFile.growLoop_lower m minSize maxS (size * 2) (by omega) hm
    · rw [if_neg h2]
      exact hm
  · rw [dif_neg h]
    exact hs
termination_by (minSize - size).toNat
decreasing_by
  omega

/-- Started from a positive size, with `minSize` at most the cap, the
growth loop reaches at least `minSize`. -/
theorem DataFile.growLoop_reaches (minSize maxS size : Int)
    (hpos : 0 < size) (hm : minSize ≤ maxS) :
    minSize ≤ DataFile.growLoop minSize maxS size := by
  rw [DataFile.growLoop]
  by_cases h : size < minSize ∧ 0 < size
  · rw [dif_pos h]
    by_cases h2 : size < maxS / 2
    · rw [if_pos h2]
      exact DataFile.growLoop_reaches minSize maxS (size * 2) (by omega) hm
    · rw [if_neg h2]
      exact hm
  · rw [dif_neg h]
    omega
termination_by (minSize - size).toNat
decreasing_by
  omega

/-- If the loop is already past `minSize` it returns its input. -/
theorem DataFile.growLoop_exit (minSize maxS size : Int)
    (h : ¬size < minSize) :
    DataFile.growLoop minSize maxS size = size := by
  rw [DataFile.growLoop]
  rw [dif_neg (by omega)]

/-- `maxSize()` is a positive multiple of 4096 and is even. -/
theorem DataFile.maxSize_facts (c : DataFileConfig) :
    (4096 : Int) ∣ DataFile.maxSize c ∧ 0 < DataFile.maxSize c ∧
      (2 : Int) ∣ DataFile.maxSize c := by
  rcases c with ⟨p, s, pr⟩
  rcases p <;> rcases s <;> norm_num [DataFile.maxSize]

/-- On a non-small-files configuration, `maxSize()` is at least 64 MiB. -/
theorem DataFile.maxSize_ge (c : DataFileConfig) (hs : c.smallfiles = false) :
    64 * 1024 * 1024 ≤ DataFile.maxSize c := by
  rcases c with ⟨p, s, pr⟩
  cases s
  · rcases p <;> norm_num [DataFile.maxSize]
  · simp at hs

/-- `defaultSize(fileNo)` is a positive multiple of 4096. -/
theorem DataFile.defaultSize_facts (c : DataFileConfig) (fileNo : Nat) :
    (4096 : Int) ∣ DataFile.defaultSize c fileNo ∧
      0 < DataFile.defaultSize c fileNo := by
  rcases c with ⟨p, s, pr⟩
  by_cases h4 : fileNo ≤ 4
  · interval_cases fileNo <;> rcases s <;> norm_num [DataFile.defaultSize]
  · rcases s <;> norm_num [DataFile.defaultSize, h4]

/-- On a non-small-files configuration, `defaultSize(fileNo)` is at
least 64 MiB. -/
theorem DataFile.defaultSize_ge (c : DataFileConfig) (fileNo : Nat)
    (hs : c.smallfiles = false) :
    64 * 1024 * 1024 ≤ DataFile.defaultSize c fileNo := by
  rcases c with ⟨p, s, pr⟩
  simp only at hs
  subst hs
  by_cases h4 : fileNo ≤ 4
  · rw [DataFile.defaultSize, if_pos h4]
    simp only [if_neg Bool.false_ne_true]
    have h1 : (1 : Int) ≤ 2 ^ fileNo := one_le_pow₀ (by norm_num)
    nlinarith
  · norm_num [DataFile.defaultSize, h4]

/-- The four §4.1 guarantees of the computed open-size: multiple of
4096; at least 64 MiB unless small-files mode; at most `maxSize()`; at
least `minSize` whenever `minSize ≤ maxSize()`. -/
theorem DataFile.openSize_props (c : DataFileConfig) (fileNo : Nat)
    (minSize : Int) :
    (4096 : Int) ∣ DataFile.openSize c fileNo minSize ∧
    (c.smallfiles = false →
      64 * 1024 * 1024 ≤ DataFile.openSize c fileNo minSize) ∧
    DataFile.openSize c fileNo minSize ≤ DataFile.maxSize c ∧
    (minSize ≤ DataFile.maxSize c →
      minSize ≤ DataFile.openSize c fileNo minSize) := by
  obtain ⟨hmd, hmp, -⟩ := DataFile.maxSize_facts c
  obtain ⟨hdd, hdp⟩ := DataFile.defaultSize_facts c fileNo
  rw [DataFile.openSize]
  by_cases hclamp :
      DataFile.growLoop minSize (DataFile.maxSize c) (DataFile.defaultSize c fileNo) >
        DataFile.maxSize c
  · rw [if_pos hclamp]
    refine ⟨hmd, fun hs => DataFile.maxSize_ge c hs, le_refl _, fun hm => hm⟩
  · rw [if_neg hclamp]
    refine ⟨DataFile.growLoop_dvd _ _ _ hdd hmd, fun hs => ?_, by omega, fun hm => ?_⟩
    · exact DataFile.growLoop_lower _ _ _ _
        (DataFile.defaultSize_ge c fileNo hs) (DataFile.maxSize_ge c hs)
    · exact DataFile.growLoop_reaches _ _ _ hdp hm

/-- A never-initialized header: all on-disk bytes still zero. -/
def testUninitHeader : DataFileHeader := ⟨0, 0, ⟨0, 0⟩, 0, ⟨0, 0⟩, ⟨0, 0⟩⟩

/-- The header produced by first-time initialization of a 65536-byte
file number 0. -/
def initHeader65536 : DataFileHeader :=
  ⟨1, 65536, ⟨0, 8192⟩, 57328, DiskLoc.null, DiskLoc.null⟩

/-- An initialized header of a 65536-byte file number 2, used as a
concrete input for allocation instances. -/
def testAllocHeader : DataFileHeader :=
  ⟨1, 65536, ⟨2, 8192⟩, 57328, DiskLoc.null, DiskLoc.null⟩

/-- A legacy-format header: both free-list pointers hold the legacy
zero pair. -/
def legacyHeader : DataFileHeader :=
  ⟨1, 65536, ⟨2, 8192⟩, 57328, ⟨0, 0⟩, ⟨0, 0⟩⟩

/-- A corrupt header: `freeListStart` holds the legacy zero pair but
`freeListEnd` does not. -/
def corruptHeader : DataFileHeader :=
  ⟨1, 65536, ⟨2, 8192⟩, 57328, ⟨0, 0⟩, ⟨0, 4⟩⟩

/-- C1: under the preconditions (no shutdown in progress, header
present, `n ≤ unusedLength`), `allocExtentArea(n)` advances
`unused` to `(fileNo, oldOffset + n)`, decrements `unusedLength` by
exactly `n`, and returns `(fileNo, oldOffset)`, the cursor value that
was current before the call. -/
theorem claim_C1 (fileNo n : Int) (h : DataFileHeader)
    (hn : n ≤ h.unusedLength) :
    DataFile.allocExtentArea false fileNo (some h) n =
      some ({ h with unused := ⟨fileNo, h.unused.ofs + n⟩
                     unusedLength := h.unusedLength - n },
            ⟨fileNo, h.unused.ofs⟩) := by
  simp [DataFile.allocExtentArea, hn]

/-- Witness for C1: allocating 1000 bytes from a concrete header with
cursor `(2, 8192)` and 57328 unused bytes. -/
theorem claim_C1_witness :
    DataFile.allocExtentArea false 2 (some testAllocHeader) 1000 =
      some (⟨1, 65536, ⟨2, 9192⟩, 56328, DiskLoc.null, DiskLoc.null⟩,
            ⟨2, 8192⟩) :=
  claim_C1 2 1000 testAllocHeader (by decide)

/-- C10: a successful `allocExtentArea` call writes only `unused` and
`unusedLength`; `fileLength`, `version`, `freeListStart` and
`freeListEnd` are left unchanged. -/
theorem claim_C10 (fileNo n : Int) (h hres : DataFileHeader) (ret : DiskLoc)
    (heq : DataFile.allocExtentArea false fileNo (some h) n = some (hres, ret)) :
    hres.fileLength = h.fileLength ∧ hres.version = h.version ∧
      hres.freeListStart = h.freeListStart ∧ hres.freeListEnd = h.freeListEnd := by
  by_cases hn : n ≤ h.unusedLength
  · simp only [DataFile.allocExtentArea, Bool.false_eq_true, if_false,
      if_pos hn, Option.some.injEq, Prod.mk.injEq] at heq
    obtain ⟨h1, -⟩ := heq
    subst h1
    exact ⟨rfl, rfl, rfl, rfl⟩
  · simp [DataFile.allocExtentArea, hn] at heq

/-- Witness for C10: the frame fields of the concrete allocation of
`claim_C1_witness` are unchanged. -/
theorem claim_C10_witness :
    (⟨1, 65536, ⟨2, 9192⟩, 56328, DiskLoc.null, DiskLoc.null⟩ :
        DataFileHeader).fileLength = testAllocHeader.fileLength ∧
    (⟨1, 65536, ⟨2, 9192⟩, 56328, DiskLoc.null, DiskLoc.null⟩ :
        DataFileHeader).version = testAllocHeader.version ∧
    (⟨1, 65536, ⟨2, 9192⟩, 56328, DiskLoc.null, DiskLoc.null⟩ :
        DataFileHeader).freeListStart = testAllocHeader.freeListStart ∧
    (⟨1, 65536, ⟨2, 9192⟩, 56328, DiskLoc.null, DiskLoc.null⟩ :
        DataFileHeader).freeListEnd = testAllocHeader.freeListEnd :=
  claim_C10 2 1000 testAllocHeader _ ⟨2, 8192⟩ (by decide)

/-- Counterexample to C2 as stated: initializing a 65536-byte file 0
under a write lock yields a header with
`unused.ofs + unusedLength = 8192 + 57328 = 65520 ≠ 65536 = fileLength`;
the claimed invariant `unused.offset + unusedLength == fileLength` is
already false right after first-time initialization. -/
theorem claim_C2_counterexample :
    DataFileHeader.init true 0 65536 testUninitHeader = some initHeader65536 ∧
      initHeader65536.unused.ofs + initHeader65536.unusedLength ≠
        initHeader65536.fileLength := by
  decide

/-- C2 (amended): the invariant that actually holds is
`unused.offset + unusedLength == fileLength - 16` (the 16 reserved slack
bytes are excluded from the allocatable region): first-time
initialization under a write lock establishes it, and every
`allocExtentArea` call satisfying its preconditions preserves it. -/
theorem claim_C2_thm :
    (∀ (fileno L : Int) (h hres : DataFileHeader),
        h.uninitialized = true → 32768 < L →
        DataFileHeader.init true fileno L h = some hres →
        hres.unused.ofs + hres.unusedLength = hres.fileLength - 16) ∧
    (∀ (fn n : Int) (g gres : DataFileHeader) (ret : DiskLoc),
        DataFile.allocExtentArea false fn (some g) n = some (gres, ret) →
        g.unused.ofs + g.unusedLength = g.fileLength - 16 →
        gres.unused.ofs + gres.unusedLength = gres.fileLength - 16) := by
  constructor
  · intro fileno L h hres hu hL heq
    simp [DataFileHeader.init, hu, hL] at heq
    rw [← heq]
    simp [DataFileHeader.HeaderSize]
    ring
  · intro fn n g gres ret heq hg
    by_cases hn : n ≤ g.unusedLength
    · simp only [DataFile.allocExtentArea, Bool.false_eq_true, if_false,
        if_pos hn, Option.some.injEq, Prod.mk.injEq] at heq
      obtain ⟨h1, -⟩ := heq
      subst h1
      simpa using by omega
    · simp [DataFile.allocExtentArea, hn] at heq

/-- Witness for the amended C2: the invariant holds for the header
obtained by initializing file 0 at length 65536, and for the header
obtained by then allocating 1000 bytes. -/
theorem claim_C2_witness :
    (initHeader65536.unused.ofs + initHeader65536.unusedLength =
      initHeader65536.fileLength - 16) ∧
    ((⟨1, 65536, ⟨0, 9192⟩, 56328, DiskLoc.null, DiskLoc.null⟩ :
        DataFileHeader).unused.ofs +
      (⟨1, 65536, ⟨0, 9192⟩, 56328, DiskLoc.null, DiskLoc.null⟩ :
        DataFileHeader).unusedLength =
      (⟨1, 65536, ⟨0, 9192⟩, 56328, DiskLoc.null, DiskLoc.null⟩ :
        DataFileHeader).fileLength - 16) :=
  ⟨claim_C2_thm.1 0 65536 testUninitHeader initHeader65536 (by decide)
      (by decide) (by decide),
   claim_C2_thm.2 0 1000 initHeader65536
      ⟨1, 65536, ⟨0, 9192⟩, 56328, DiskLoc.null, DiskLoc.null⟩ ⟨0, 8192⟩
      (by decide) (by decide)⟩

/-- C5: initializing an uninitialized header of plausible length
`L > 32768` under a held write lock writes exactly the round-trip
fields: `fileLength = L`, the current-format version tag,
`unused = (fileNo, 8192)`, `unusedLength = L - 8192 - 16`, and both
free-list pointers set to the null sentinel. -/
theorem claim_C5 (fileno L : Int) (h : DataFileHeader)
    (hu : h.uninitialized = true) (hL : 32768 < L) :
    DataFileHeader.init true fileno L h =
      some { version := DataFileVersion.defaultForNewFiles
             fileLength := L
             unused := ⟨fileno, 8192⟩
             unusedLength := L - 8192 - 16
             freeListStart := DiskLoc.null
             freeListEnd := DiskLoc.null } := by
  simp [DataFileHeader.init, hu, hL, DataFileHeader.HeaderSize]

/-- Witness for C5: file number 3 of length 65536. -/
theorem claim_C5_witness :
    DataFileHeader.init true 3 65536 testUninitHeader =
      some ⟨1, 65536, ⟨3, 8192⟩, 57328, DiskLoc.null, DiskLoc.null⟩ :=
  claim_C5 3 65536 testUninitHeader (by decide) (by decide)

/-- C6: initialization attempted on an uninitialized header of plausible
length while no write lock is held is a pure no-op deferral: it does not
signal an error (no fatal assertion fires) and writes no header field,
leaving the header uninitialized for a later retry. -/
theorem claim_C6 (fileno L : Int) (h : DataFileHeader)
    (hu : h.uninitialized = true) (hL : 32768 < L) :
    DataFileHeader.init false fileno L h = some h := by
  simp [DataFileHeader.init, hu, hL]

/-- Witness for C6: the deferred no-op on a concrete uninitialized
header. -/
theorem claim_C6_witness :
    DataFileHeader.init false 3 65536 testUninitHeader =
      some testUninitHeader :=
  claim_C6 3 65536 testUninitHeader (by decide) (by decide)

/-- C7: on an initialized header, the upgrade pass rewrites a legacy
zero-pair `freeListStart == freeListEnd == (0,0)` to the proper null
sentinel in both pointers, and running it again on the result changes
nothing; a header with `freeListStart == (0,0)` but
`freeListEnd != (0,0)` hits the fatal `invariant` failure. -/
theorem claim_C7 (h : DataFileHeader) :
    (h.freeListStart = ⟨0, 0⟩ → h.freeListEnd = ⟨0, 0⟩ →
      DataFileHeader.checkUpgrade h =
        some { h with freeListStart := DiskLoc.null
                      freeListEnd := DiskLoc.null } ∧
      DataFileHeader.checkUpgrade
          { h with freeListStart := DiskLoc.null
                   freeListEnd := DiskLoc.null } =
        some { h with freeListStart := DiskLoc.null
                      freeListEnd := DiskLoc.null }) ∧
    (h.freeListStart = ⟨0, 0⟩ → h.freeListEnd ≠ ⟨0, 0⟩ →
      DataFileHeader.checkUpgrade h = none) := by
  constructor
  · intro h1 h2
    constructor
    · simp [DataFileHeader.checkUpgrade, h1, h2]
    · simp [DataFileHeader.checkUpgrade, DiskLoc.null]
  · intro h1 h2
    simp [DataFileHeader.checkUpgrade, h1, h2]

/-- Witness for C7: the upgrade of a concrete legacy header, its
idempotence, and the fatal outcome on a concrete half-upgraded header. -/
theorem claim_C7_witness :
    (DataFileHeader.checkUpgrade legacyHeader =
        some ⟨1, 65536, ⟨2, 8192⟩, 57328, DiskLoc.null, DiskLoc.null⟩ ∧
      DataFileHeader.checkUpgrade
          ⟨1, 65536, ⟨2, 8192⟩, 57328, DiskLoc.null, DiskLoc.null⟩ =
        some ⟨1, 65536, ⟨2, 8192⟩, 57328, DiskLoc.null, DiskLoc.null⟩) ∧
    DataFileHeader.checkUpgrade corruptHeader = none :=
  ⟨(claim_C7 legacyHeader).1 (by decide) (by decide),
   (claim_C7 corruptHeader).2 (by decide) (by decide)⟩

/-- C3: for every configuration, file ordinal and `minSize`, the size
computed by `DataFile::open` before any mapping is made is a multiple of
4096, at least 64 MiB unless small-files mode is set, never exceeds
`maxSize()`, and is at least `minSize` whenever `minSize ≤ maxSize()`. -/
theorem claim_C3 (c : DataFileConfig) (fileNo : Nat) (minSize : Int) :
    (4096 : Int) ∣ DataFile.openSize c fileNo minSize ∧
    (c.smallfiles = false →
      64 * 1024 * 1024 ≤ DataFile.openSize c fileNo minSize) ∧
    DataFile.openSize c fileNo minSize ≤ DataFile.maxSize c ∧
    (minSize ≤ DataFile.maxSize c →
      minSize ≤ DataFile.openSize c fileNo minSize) :=
  DataFile.openSize_props c fileNo minSize

/-- Witness for C3: the spec's concrete scenario, file ordinal 2 with
small-files mode off and `minSize = 0`. -/
theorem claim_C3_witness :
    (4096 : Int) ∣ DataFile.openSize cfgStd 2 0 ∧
    64 * 1024 * 1024 ≤ DataFile.openSize cfgStd 2 0 ∧
    DataFile.openSize cfgStd 2 0 ≤ DataFile.maxSize cfgStd ∧
    (0 : Int) ≤ DataFile.openSize cfgStd 2 0 := by
  obtain ⟨h1, h2, h3, h4⟩ := claim_C3 cfgStd 2 0
  exact ⟨h1, h2 rfl, h3, h4 (by decide)⟩

/-- Evaluation of `maxSize()` on the standard configuration. -/
theorem maxSize_cfgStd : DataFile.maxSize cfgStd = 2146435072 := by
  norm_num [DataFile.maxSize, cfgStd]

/-- Counterexample to C4 as stated: for file ordinal 3 (default size
512 MiB) and `minSize = 600000000` on a 64-bit, non-small-files
configuration, the source doubles the candidate once (512 MiB is still
below `maxSize()/2`) and returns 1 GiB, while the spec-worded rule
"double it, unless doubling would exceed half of `maxSize()`" jumps
directly to `maxSize()` because `2 * 512 MiB > maxSize()/2`. -/
theorem claim_C4_counterexample :
    DataFile.openSize cfgStd 3 600000000 = 1073741824 ∧
    specOpenSize cfgStd 3 600000000 = 2146435072 ∧
    DataFile.openSize cfgStd 3 600000000 ≠ specOpenSize cfgStd 3 600000000 := by
  have hd : DataFile.defaultSize cfgStd 3 = 536870912 := by
    norm_num [DataFile.defaultSize, cfgStd]
  have hg : DataFile.growLoop 600000000 2146435072 536870912 = 1073741824 := by
    rw [DataFile.growLoop, dif_pos (by norm_num), if_pos (by norm_num)]
    rw [show (536870912 : Int) * 2 = 1073741824 by norm_num]
    exact DataFile.growLoop_exit _ _ _ (by norm_num)
  have hs : specGrowLoop 600000000 2146435072 536870912 = 2146435072 := by
    rw [specGrowLoop, dif_pos (by norm_num), if_pos (by norm_num)]
  refine ⟨?_, ?_, ?_⟩
  · simp only [DataFile.openSize, hd, maxSize_cfgStd, hg]
    norm_num
  · simp only [specOpenSize, hd, maxSize_cfgStd, hs]
    norm_num
  · simp only [DataFile.openSize, specOpenSize, hd, maxSize_cfgStd, hg, hs]
    norm_num

/-- C4 (amended): the computed open-size follows the loop "while the
candidate is smaller than `minSize`, jump directly to `maxSize()` and
stop if doubling would reach or exceed `maxSize()` itself, otherwise
double it", clamped to `maxSize()` at the end. -/
theorem claim_C4_thm (c : DataFileConfig) (fileNo : Nat) (minSize : Int) :
    amendedOpenSize c fileNo minSize = DataFile.openSize c fileNo minSize := by
  obtain ⟨-, -, hm2⟩ := DataFile.maxSize_facts c
  simp only [amendedOpenSize, DataFile.openSize,
    amendedGrowLoop_eq_growLoop _ _ hm2]

/-- C8: `openExisting` returns the `InvalidPath` error when the file
does not exist, the internal-error result when the mapping primitive
fails to open it, and on a successfully mapped file whose length is not
a multiple of 4096 or exceeds `2^31 - 1` bytes it fails fatally rather
than returning success. -/
theorem claim_C8 (c : DataFileConfig) (ex op vn : Bool) (sz : Nat) :
    (ex = false →
      DataFile.openExisting c ex op vn sz = .invalidPath) ∧
    (ex = true → op = false →
      DataFile.openExisting c ex op vn sz = .internalError) ∧
    (ex = true → op = true → vn = true →
      (¬sz % 4096 = 0 ∨ 0x7fffffff < sz) →
      DataFile.openExisting c ex op vn sz = .fatal) := by
  refine ⟨?_, ?_, ?_⟩
  · intro h
    subst h
    simp [DataFile.openExisting]
  · intro h1 h2
    subst h1
    subst h2
    simp [DataFile.openExisting]
  · intro h1 h2 h3 h4
    subst h1
    subst h2
    subst h3
    rcases h4 with h4 | h4
    · by_cases h5 : sz ≤ 0x7fffffff
      · simp [DataFile.openExisting, h4, h5]
      · simp [DataFile.openExisting, h5]
    · simp [DataFile.openExisting, Nat.not_le.mpr h4]

/-- Witness for C8: a missing file, a failed mapping, and a mapped file
of the misaligned length 4097. -/
theorem claim_C8_witness :
    DataFile.openExisting cfgStd false true true 4096 = .invalidPath ∧
    DataFile.openExisting cfgStd true false true 4096 = .internalError ∧
    DataFile.openExisting cfgStd true true true 4097 = .fatal :=
  ⟨(claim_C8 cfgStd false true true 4096).1 rfl,
   (claim_C8 cfgStd true false true 4096).2.1 rfl rfl,
   (claim_C8 cfgStd true true true 4097).2.2 rfl rfl rfl
     (Or.inl (by decide))⟩

/-- Evaluation of the computed open-size for file 0 with `minSize = 0`
on the standard configuration: the default 64 MiB. -/
theorem openSize_cfgStd_zero : DataFile.openSize cfgStd 0 0 = 67108864 := by
  have hd : DataFile.defaultSize cfgStd 0 = 67108864 := by
    norm_num [DataFile.defaultSize, cfgStd]
  have hg : DataFile.growLoop 0 2146435072 67108864 = 67108864 :=
    DataFile.growLoop_exit _ _ _ (by norm_num)
  simp only [DataFile.openSize, hd, maxSize_cfgStd, hg]
  norm_num

/-- Counterexample to C9 as stated: with the `prealloc` configuration
option off, a preallocate-only `open` issues no materialization request
at all (`requested = none`), although the claim says a request for the
computed size is made for every such call. -/
theorem claim_C9_counterexample :
    DataFile.openFile cfgStd 0 0 true true true =
      some { requested := none, mappedSize := none,
             headerInitCalled := false } := by
  simp only [DataFile.openFile, openSize_cfgStd_zero]
  norm_num [cfgStd]

/-- C9 (amended): a preallocate-only `open` returns without creating any
mapping and without driving header initialization; it requests that the
background service materialize a file of the computed size if and only
if the `prealloc` configuration option is enabled. -/
theorem claim_C9_thm (c : DataFileConfig) (fileNo : Nat) (minSize : Int)
    (createOk viewNonNull : Bool) :
    DataFile.openFile c fileNo minSize true createOk viewNonNull =
      some { requested :=
               if c.prealloc then some (DataFile.openSize c fileNo minSize)
               else none
             mappedSize := none
             headerInitCalled := false } := by
  obtain ⟨hdvd, h64, -, -⟩ := DataFile.openSize_props c fileNo minSize
  have hv : DataFile.openSize c fileNo minSize ≥ 64 * 1024 * 1024 ∨
      c.smallfiles = true := by
    by_cases hs : c.smallfiles
    · exact Or.inr hs
    · exact Or.inl (h64 (by simpa using hs))
  simp only [DataFile.openFile]
  rw [if_neg (not_not_intro hv),
    if_neg (not_not_intro (Int.emod_eq_zero_of_dvd hdvd)), if_pos trivial]
